import Mathlib

/-!
Verification of the research-navigator agent core: the bounded
reason/route/act loop (src/agent/nodes.py, graph.py, schema.py), the
reasoning-response parser (src/tools/llm_client.py), the vector-store
loader cache (src/tools/rag_search.py, rag_loader.py), and the synthesis
fallback report (finish_node).

External effects (LLM completions, retrieval calls, web search, disk
access) are modelled as explicit parameters: each node takes the outcome
of its one external call as an `Except String _` value, mirroring the
try/except structure of the Python code.
-/

/-- One entry of `state["scratchpad"]`: the decision record appended by
`reason_node` (step, thought, action, action_input). -/
structure DecisionRecord where
  step : Nat
  thought : String
  action : String
  action_input : String
deriving Repr, DecidableEq

/-- One normalized web-search result as produced by `web_search` in
src/tools/tavily_tool.py.  The `score` and `published_date` values are
carried opaquely (the agent never computes with them), so they are
modelled as optional strings. -/
structure WebResult where
  title : String
  url : String
  content : String
  score : Option String
  published_date : Option String
deriving Repr, DecidableEq

/-- The payload recorded in a `tool_calls` entry: either the `output`
key (a chunk list for `search_internal`, a result list for `web_search`)
or the `error` key. -/
inductive ToolOutput where
  | internalOut : List String → ToolOutput
  | externalOut : List WebResult → ToolOutput
  | error : String → ToolOutput
deriving Repr, DecidableEq

/-- One entry of `state["tool_calls"]` (keys "tool", "input", and
"output" or "error"). -/
structure ToolCall where
  tool : String
  input : String
  output : ToolOutput
deriving Repr, DecidableEq

/-- `AgentState` from src/agent/schema.py. -/
structure AgentState where
  query : String
  kb_path : Option String
  history : Option (List String)
  scratchpad : List DecisionRecord
  tool_calls : List ToolCall
  internal_context : List String
  external_context : List WebResult
  step : Nat
  max_steps : Nat
  final_answer : Option String
deriving Repr, DecidableEq

/-- `create_initial_state` from src/agent/schema.py. -/
def create_initial_state (query : String) (max_steps : Nat) (kb_path : Option String) : AgentState :=
  { query := query
    kb_path := kb_path
    history := none
    scratchpad := []
    tool_calls := []
    internal_context := []
    external_context := []
    step := 0
    max_steps := max_steps
    final_answer := none }

/-- Python truthiness of `state.get("kb_path")`: `None` and the empty
string are falsy.  Used by `reason_node` (line 46) and by the skip check
`if not kb_path` in `act_internal_node` (line 97). -/
def kb_present (s : AgentState) : Bool :=
  match s.kb_path with
  | some p => p != ""
  | none => false

/-- The `available_tools` list built in `reason_node`
(src/agent/nodes.py lines 44-49); it parameterizes the LLM reasoning
call. -/
def available_tools (s : AgentState) : List String :=
  (if kb_present s then ["search_internal"] else []) ++ ["web_search", "finish"]

/-- The characters removed by Python `str.strip()` with no argument. -/
def char_is_space (c : Char) : Bool :=
  c == ' ' || c == '\t' || c == '\n' || c == '\r' || c == '\x0b' || c == '\x0c'

/-- Python `str.strip()`: drop whitespace from both ends.  Implemented
structurally on the character list so that concrete parses reduce in the
kernel. -/
def py_strip (s : String) : String :=
  ⟨(((s.data.dropWhile char_is_space).reverse).dropWhile char_is_space).reverse⟩

/-- Prefix test on character lists (the pattern comes first). -/
def starts_with_chars : List Char → List Char → Bool
  | [], _ => true
  | _ :: _, [] => false
  | p :: ps, c :: cs => p == c && starts_with_chars ps cs

/-- Python `str.startswith(pat)`. -/
def py_starts_with (s pat : String) : Bool :=
  starts_with_chars pat.data s.data

/-- Scan for an occurrence of `pat` in a character list. -/
def contains_chars (pat : List Char) : List Char → Bool
  | [] => pat.isEmpty
  | c :: rest => starts_with_chars pat (c :: rest) || contains_chars pat rest

/-- Python substring containment `pat in s`. -/
def py_contains (s pat : String) : Bool :=
  contains_chars pat.data s.data

/-- Left-to-right non-overlapping replacement on character lists.  The
fuel argument (instantiated with the list length) only makes the
recursion structural: every step consumes at least one character when
`pat` is nonempty, and the callers never pass an empty pattern. -/
def replace_go (pat repl : List Char) : Nat → List Char → List Char
  | _, [] => []
  | 0, l => l
  | fuel + 1, c :: rest =>
    if starts_with_chars pat (c :: rest) && !pat.isEmpty then
      repl ++ replace_go pat repl fuel ((c :: rest).drop pat.length)
    else c :: replace_go pat repl fuel rest

/-- Python `s.replace(pat, repl)` (replace every occurrence). -/
def py_replace (s pat repl : String) : String :=
  ⟨replace_go pat.data repl.data s.data.length s.data⟩

/-- Python `str.lower()` (the parser only ever compares ASCII text). -/
def py_lower (s : String) : String :=
  ⟨s.data.map Char.toLower⟩

/-- Splitter for Python `s.split("\n")`: accumulate the current line in
reverse, emitting it at each newline and at the end of the input. -/
def split_newline_go : List Char → List Char → List (List Char)
  | [], cur => [cur.reverse]
  | c :: rest, cur =>
    if c == '\n' then cur.reverse :: split_newline_go rest []
    else split_newline_go rest (c :: cur)

/-- Python `s.split("\n")`. -/
def py_split_newlines (s : String) : List String :=
  (split_newline_go s.data []).map (fun l => ⟨l⟩)

/-- Content extracted from a `THOUGHT:` line:
`line.replace("THOUGHT:", "").strip()` after the per-line `strip()`. -/
def thought_content (line0 : String) : String :=
  py_strip (py_replace (py_strip line0) "THOUGHT:" "")

/-- Action selected from an `ACTION:` line
(src/tools/llm_client.py lines 347-354): lowercase the remainder, then
resolve by substring match, keeping the previous action when nothing
matches. -/
def action_select (old : String) (line0 : String) : String :=
  let action_text := py_lower (py_strip (py_replace (py_strip line0) "ACTION:" ""))
  if py_contains action_text "internal" || py_contains action_text "search_internal" then
    "search_internal"
  else if py_contains action_text "web" || py_contains action_text "web_search" then
    "web_search"
  else if py_contains action_text "finish" then
    "finish"
  else old

/-- Content extracted from an `ACTION_INPUT:` (or `ACTION INPUT:`)
line (src/tools/llm_client.py line 356). -/
def input_content (line0 : String) : String :=
  py_strip (py_replace (py_replace (py_strip line0) "ACTION_INPUT:" "") "ACTION INPUT:" "")

/-- Parser accumulator: the three local variables of
`_parse_reasoning_response`. -/
structure ParseAcc where
  thought : String
  action : String
  action_input : String
deriving Repr, DecidableEq

/-- One iteration of the line loop in `_parse_reasoning_response`
(src/tools/llm_client.py lines 342-356): strip the line, then dispatch
on its label prefix. -/
def parse_line (acc : ParseAcc) (line0 : String) : ParseAcc :=
  if py_starts_with (py_strip line0) "THOUGHT:" then
    { acc with thought := thought_content line0 }
  else if py_starts_with (py_strip line0) "ACTION:" then
    { acc with action := action_select acc.action line0 }
  else if py_starts_with (py_strip line0) "ACTION_INPUT:" || py_starts_with (py_strip line0) "ACTION INPUT:" then
    { acc with action_input := input_content line0 }
  else acc

/-- Which branch of `parse_line` a line falls into: 0 = THOUGHT,
1 = ACTION, 2 = ACTION_INPUT, 3 = unlabeled. -/
def lineCat (line0 : String) : Nat :=
  if py_starts_with (py_strip line0) "THOUGHT:" then 0
  else if py_starts_with (py_strip line0) "ACTION:" then 1
  else if py_starts_with (py_strip line0) "ACTION_INPUT:" || py_starts_with (py_strip line0) "ACTION INPUT:" then 2
  else 3

/-- `LLMClient._parse_reasoning_response` (src/tools/llm_client.py
lines 327-364): split on newlines, fold the line loop, then apply the
defaults for an empty thought and an empty action input. -/
def parse_reasoning_response (response : String) : String × String × String :=
  let lines := py_split_newlines (py_strip response)
  let acc := List.foldl parse_line { thought := "", action := "finish", action_input := "" } lines
  let thought := if acc.thought = "" then "Analyzing the query and deciding next steps." else acc.thought
  let action_input := if acc.action_input = "" then "No specific input needed" else acc.action_input
  (thought, acc.action, action_input)

/-- The templated fallback report built in the `except` branch of
`finish_node` (src/agent/nodes.py lines 232-258).  Every `tool_calls`
producer sets the `title` and `url` keys of a web result, so the
defensive `.get` defaults of the Python f-string are modelled by direct
field access. -/
def fallback_answer (query : String) (internal_sources : List String)
    (external_sources : List WebResult) (num_steps : Nat) (err : String) : String :=
  "# Research Brief: " ++ query ++
  "\n\n## Summary\n\nAn error occurred during LLM synthesis. Below is a basic summary of the gathered information.\n\n## Process\n\n- Steps taken: " ++
  toString num_steps ++
  "\n- Internal sources consulted: " ++ toString internal_sources.length ++
  "\n- External sources consulted: " ++ toString external_sources.length ++
  "\n\n## Sources\n\n### Internal Knowledge Base\n" ++
  (if internal_sources.isEmpty then "- No internal sources used"
   else String.intercalate "\n"
     ((internal_sources.take 5).map (fun chunk => "- " ++ chunk.take 100 ++ "..."))) ++
  "\n\n### External Web Search\n" ++
  (if external_sources.isEmpty then "- No external sources used"
   else String.intercalate "\n"
     ((external_sources.take 5).map (fun result => "- [" ++ result.title ++ "](" ++ result.url ++ ")"))) ++
  "\n\n## Error\n\nSynthesis failed: " ++ err ++
  "\n\n---\n*Generated by Research Navigator Agent (Error Recovery Mode)*\n"

/-- The three targets of the conditional edge out of the reason node
(src/agent/graph.py lines 42-50). -/
inductive Route where
  | act_internal
  | act_external
  | finish
deriving Repr, DecidableEq

/-- `route_action` from src/agent/nodes.py lines 265-289. -/
def route_action (s : AgentState) : Route :=
  if s.step ≥ s.max_steps then Route.finish
  else
    match s.scratchpad.getLast? with
    | some last =>
      if last.action = "search_internal" then Route.act_internal
      else if last.action = "web_search" then Route.act_external
      else Route.finish
    | none => Route.finish

/-- `reason_node` from src/agent/nodes.py lines 19-83.  The argument
`llm` is the outcome of `generate_reasoning`: the raw response text on
success (which is then parsed), or the exception message. -/
def reason_node (llm : Except String String) (s : AgentState) : AgentState :=
  match llm with
  | Except.ok response =>
    let parsed := parse_reasoning_response response
    { s with scratchpad := s.scratchpad ++
        [{ step := s.step, thought := parsed.1, action := parsed.2.1, action_input := parsed.2.2 }] }
  | Except.error e =>
    { s with scratchpad := s.scratchpad ++
        [{ step := s.step, thought := "Error during reasoning: " ++ e, action := "finish", action_input := s.query }] }

/-- The search-query selection shared by both action nodes
(src/agent/nodes.py lines 103-108 and 150-155): the last scratchpad
`action_input` when it is truthy, else the original query. -/
def last_action_input_or (query : String) (scratchpad : List DecisionRecord) : String :=
  match scratchpad.getLast? with
  | some last => if last.action_input != "" then last.action_input else query
  | none => query

/-- `act_internal_node` from src/agent/nodes.py lines 86-138.  The
argument `search` is the outcome of the `search_internal` call. -/
def act_internal_node (search : Except String (List String)) (s : AgentState) : AgentState :=
  if !(kb_present s) then
    { s with step := s.step + 1 }
  else
    match search with
    | Except.ok results =>
      { s with internal_context := s.internal_context ++ results
               tool_calls := s.tool_calls ++
                 [{ tool := "search_internal", input := last_action_input_or s.query s.scratchpad,
                    output := ToolOutput.internalOut results }]
               step := s.step + 1 }
    | Except.error e =>
      { s with tool_calls := s.tool_calls ++
                 [{ tool := "search_internal", input := s.query, output := ToolOutput.error e }]
               step := s.step + 1 }

/-- `act_external_node` from src/agent/nodes.py lines 141-184.  The
argument `search` is the outcome of the `web_search` call. -/
def act_external_node (search : Except String (List WebResult)) (s : AgentState) : AgentState :=
  match search with
  | Except.ok results =>
    { s with external_context := s.external_context ++ results
             tool_calls := s.tool_calls ++
               [{ tool := "web_search", input := last_action_input_or s.query s.scratchpad,
                  output := ToolOutput.externalOut results }]
             step := s.step + 1 }
  | Except.error e =>
    { s with tool_calls := s.tool_calls ++
               [{ tool := "web_search", input := s.query, output := ToolOutput.error e }]
             step := s.step + 1 }

/-- `finish_node` from src/agent/nodes.py lines 187-261.  The argument
`synth` is the outcome of `generate_synthesis`. -/
def finish_node (synth : Except String String) (s : AgentState) : AgentState :=
  match synth with
  | Except.ok answer => { s with final_answer := some answer }
  | Except.error e =>
    { s with final_answer := some
               (fallback_answer s.query s.internal_context s.external_context s.step e) }

/-- The outcomes of the external calls available to one loop iteration:
the reasoning LLM call, the internal retrieval call, the web-search
call, and the synthesis LLM call. -/
structure IterOracle where
  llm : Except String String
  internalRes : Except String (List String)
  externalRes : Except String (List WebResult)
  synth : Except String String

/-- Helper for termination: the reason node does not change `step`. -/
theorem reason_node_step (llm : Except String String) (s : AgentState) :
    (reason_node llm s).step = s.step := by
  cases llm <;> rfl

/-- Helper for termination: the reason node does not change `max_steps`. -/
theorem reason_node_max_steps (llm : Except String String) (s : AgentState) :
    (reason_node llm s).max_steps = s.max_steps := by
  cases llm <;> rfl

/-- Helper: every branch of the internal action node increments `step`
by exactly one. -/
theorem act_internal_node_step (search : Except String (List String)) (s : AgentState) :
    (act_internal_node search s).step = s.step + 1 := by
  unfold act_internal_node
  cases search <;> split <;> rfl

/-- Helper: the internal action node does not change `max_steps`. -/
theorem act_internal_node_max_steps (search : Except String (List String)) (s : AgentState) :
    (act_internal_node search s).max_steps = s.max_steps := by
  unfold act_internal_node
  cases search <;> split <;> rfl

/-- Helper: every branch of the external action node increments `step`
by exactly one. -/
theorem act_external_node_step (search : Except String (List WebResult)) (s : AgentState) :
    (act_external_node search s).step = s.step + 1 := by
  cases search <;> rfl

/-- Helper: the external action node does not change `max_steps`. -/
theorem act_external_node_max_steps (search : Except String (List WebResult)) (s : AgentState) :
    (act_external_node search s).max_steps = s.max_steps := by
  cases search <;> rfl

/-- Helper: when the router does not choose finish, the step budget is
not yet exhausted (the first branch of `route_action`). -/
theorem route_action_lt (s : AgentState) (h : route_action s ≠ Route.finish) :
    s.step < s.max_steps := by
  by_contra hge
  apply h
  unfold route_action
  rw [if_pos (Nat.le_of_not_lt hge)]

/-- The compiled graph of `create_research_graph` (src/agent/graph.py
lines 22-60) run from the entry point: reason, then route, then either
finish (ending the run) or one action node followed by a loop back to
reason.  `n` counts completed reasoning calls before this iteration;
the result pairs the final state with the total number of reasoning
calls.  The oracle `env` supplies the external-call outcomes of each
iteration. -/
def run_graph (env : Nat → IterOracle) (n : Nat) (s : AgentState) : AgentState × Nat :=
  let o := env n
  let s1 := reason_node o.llm s
  match h : route_action s1 with
  | Route.finish => (finish_node o.synth s1, n + 1)
  | Route.act_internal => run_graph env (n + 1) (act_internal_node o.internalRes s1)
  | Route.act_external => run_graph env (n + 1) (act_external_node o.externalRes s1)
termination_by s.max_steps - s.step
decreasing_by
  · have hlt : (reason_node (env n).llm s).step < (reason_node (env n).llm s).max_steps :=
      route_action_lt _ (by rw [h]; intro hc; cases hc)
    rw [reason_node_step, reason_node_max_steps] at hlt
    rw [act_internal_node_step, act_internal_node_max_steps,
        reason_node_step, reason_node_max_steps]
    omega
  · have hlt : (reason_node (env n).llm s).step < (reason_node (env n).llm s).max_steps :=
      route_action_lt _ (by rw [h]; intro hc; cases hc)
    rw [reason_node_step, reason_node_max_steps] at hlt
    rw [act_external_node_step, act_external_node_max_steps,
        reason_node_step, reason_node_max_steps]
    omega

/-- The on-disk situation seen by `get_or_create_vectorstore`
(src/tools/rag_loader.py lines 279-335): whether the vector-store
directory with its index.faiss file exists, and the outcome of a load
attempt on it.  The index content type `VS` is abstract. -/
structure DiskState (VS : Type) where
  index_present : Bool
  load_result : Except String VS

/-- `get_or_create_vectorstore` from src/tools/rag_loader.py lines
279-335.  `build` is the (deterministic) result of the
load-documents/split/embed/build pipeline for the corpus; the returned
number counts the embedding/build passes performed.  A persisted index
is loaded when present and no rebuild is forced; a load failure is
swallowed and triggers a rebuild. -/
def get_or_create_vectorstore {VS : Type} (build : VS) (disk : DiskState VS)
    (force_rebuild : Bool) : VS × Nat :=
  if !force_rebuild && disk.index_present then
    match disk.load_result with
    | Except.ok v => (v, 0)
    | Except.error _ => (build, 1)
  else (build, 1)

/-- The module-level cache of src/tools/rag_search.py (lines 21-23):
`_vectorstore_cache` and `_cache_kb_path`. -/
structure RagCache (VS : Type) where
  vectorstore_cache : Option VS
  cache_kb_path : Option String

/-- `initialize_vectorstore` from src/tools/rag_search.py lines 26-52:
return the cached store when the kb path matches and no rebuild is
forced, otherwise delegate to `get_or_create_vectorstore` and cache the
result.  Returns the store, the updated cache, and the number of
embedding/build passes performed. -/
def initialize_vectorstore {VS : Type} (build : VS) (disk : DiskState VS)
    (cache : RagCache VS) (kb_path : String) (force_rebuild : Bool) :
    VS × RagCache VS × Nat :=
  let rebuilt :=
    let r := get_or_create_vectorstore build disk force_rebuild
    (r.1, RagCache.mk (some r.1) (some kb_path), r.2)
  match cache.vectorstore_cache with
  | some v =>
    if !force_rebuild && (cache.cache_kb_path == some kb_path) then (v, cache, 0)
    else rebuilt
  | none => rebuilt

/-- Unfolding lemma: a routed finish ends the run with the synthesis
node. -/
theorem run_graph_finish_eq (env : Nat → IterOracle) (n : Nat) (s : AgentState)
    (h : route_action (reason_node (env n).llm s) = Route.finish) :
    run_graph env n s = (finish_node (env n).synth (reason_node (env n).llm s), n + 1) := by
  rw [run_graph]
  split <;> simp_all

/-- Unfolding lemma: a routed internal action loops back to reasoning. -/
theorem run_graph_internal_eq (env : Nat → IterOracle) (n : Nat) (s : AgentState)
    (h : route_action (reason_node (env n).llm s) = Route.act_internal) :
    run_graph env n s =
      run_graph env (n + 1) (act_internal_node (env n).internalRes (reason_node (env n).llm s)) := by
  rw [run_graph]
  split <;> simp_all

/-- Unfolding lemma: a routed external action loops back to reasoning. -/
theorem run_graph_external_eq (env : Nat → IterOracle) (n : Nat) (s : AgentState)
    (h : route_action (reason_node (env n).llm s) = Route.act_external) :
    run_graph env n s =
      run_graph env (n + 1) (act_external_node (env n).externalRes (reason_node (env n).llm s)) := by
  rw [run_graph]
  split <;> simp_all

/-- Helper: the reason node changes only the scratchpad. -/
theorem reason_node_tool_calls (llm : Except String String) (s : AgentState) :
    (reason_node llm s).tool_calls = s.tool_calls := by
  cases llm <;> rfl

/-- Helper: the reason node keeps the internal evidence list. -/
theorem reason_node_internal_context (llm : Except String String) (s : AgentState) :
    (reason_node llm s).internal_context = s.internal_context := by
  cases llm <;> rfl

/-- Helper: the reason node keeps the corpus location. -/
theorem reason_node_kb_present (llm : Except String String) (s : AgentState) :
    kb_present (reason_node llm s) = kb_present s := by
  cases llm <;> rfl

/-- Helper: with no corpus location, the internal action node is a
no-op apart from the step increment (lines 97-100 of nodes.py). -/
theorem act_internal_node_skip (search : Except String (List String)) (s : AgentState)
    (h : kb_present s = false) :
    act_internal_node search s = { s with step := s.step + 1 } := by
  unfold act_internal_node
  rw [h]
  rfl

/-- Helper: with a corpus location present, every branch of the internal
action node appends exactly one tool-call entry. -/
theorem act_internal_node_tool_calls_length (search : Except String (List String))
    (s : AgentState) (h : kb_present s = true) :
    (act_internal_node search s).tool_calls.length = s.tool_calls.length + 1 := by
  unfold act_internal_node
  rw [h]
  cases search <;> simp

/-- Helper: the internal action node keeps the corpus location. -/
theorem act_internal_node_kb_present (search : Except String (List String)) (s : AgentState) :
    kb_present (act_internal_node search s) = kb_present s := by
  unfold act_internal_node
  cases search <;> split <;> rfl

/-- Helper: every branch of the external action node appends exactly
one tool-call entry. -/
theorem act_external_node_tool_calls_length (search : Except String (List WebResult))
    (s : AgentState) :
    (act_external_node search s).tool_calls.length = s.tool_calls.length + 1 := by
  cases search <;> simp [act_external_node]

/-- Helper: the external action node keeps the internal evidence list. -/
theorem act_external_node_internal_context (search : Except String (List WebResult))
    (s : AgentState) :
    (act_external_node search s).internal_context = s.internal_context := by
  cases search <;> rfl

/-- Helper: the external action node keeps the corpus location. -/
theorem act_external_node_kb_present (search : Except String (List WebResult)) (s : AgentState) :
    kb_present (act_external_node search s) = kb_present s := by
  cases search <;> rfl

/-- Helper: the finish node changes only the final answer. -/
theorem finish_node_tool_calls (synth : Except String String) (s : AgentState) :
    (finish_node synth s).tool_calls = s.tool_calls := by
  cases synth <;> rfl

/-- Helper: the finish node keeps the step counter. -/
theorem finish_node_step (synth : Except String String) (s : AgentState) :
    (finish_node synth s).step = s.step := by
  cases synth <;> rfl

/-- Helper: the finish node keeps the internal evidence list. -/
theorem finish_node_internal_context (synth : Except String String) (s : AgentState) :
    (finish_node synth s).internal_context = s.internal_context := by
  cases synth <;> rfl

/-- Helper: the number of reasoning calls a run performs from iteration
`n` is bounded by the remaining budget plus the final forced-finish
call. -/
theorem run_graph_count_le (env : Nat → IterOracle) (n : Nat) (s : AgentState) :
    (run_graph env n s).2 ≤ n + 1 + (s.max_steps - s.step) := by
  induction n, s using run_graph.induct env with
  | case1 n s o s1 h =>
    simp only [show o = env n from rfl, show s1 = reason_node (env n).llm s from rfl] at h
    rw [run_graph_finish_eq env n s h]
    simp only []
    omega
  | case2 n s o s1 h ih =>
    simp only [show o = env n from rfl, show s1 = reason_node (env n).llm s from rfl] at h ih
    rw [run_graph_internal_eq env n s h]
    have hlt : (reason_node (env n).llm s).step < (reason_node (env n).llm s).max_steps :=
      route_action_lt _ (by rw [h]; intro hc; cases hc)
    rw [reason_node_step, reason_node_max_steps] at hlt
    have h1 := act_internal_node_step (env n).internalRes (reason_node (env n).llm s)
    have h2 := act_internal_node_max_steps (env n).internalRes (reason_node (env n).llm s)
    rw [reason_node_step] at h1
    rw [reason_node_max_steps] at h2
    rw [h1, h2] at ih
    omega
  | case3 n s o s1 h ih =>
    simp only [show o = env n from rfl, show s1 = reason_node (env n).llm s from rfl] at h ih
    rw [run_graph_external_eq env n s h]
    have hlt : (reason_node (env n).llm s).step < (reason_node (env n).llm s).max_steps :=
      route_action_lt _ (by rw [h]; intro hc; cases hc)
    rw [reason_node_step, reason_node_max_steps] at hlt
    have h1 := act_external_node_step (env n).externalRes (reason_node (env n).llm s)
    have h2 := act_external_node_max_steps (env n).externalRes (reason_node (env n).llm s)
    rw [reason_node_step] at h1
    rw [reason_node_max_steps] at h2
    rw [h1, h2] at ih
    omega

/-- Helper: with a corpus location present throughout, the audit-log
length keeps tracking the step counter to the end of the run. -/
theorem run_graph_tool_calls_eq (env : Nat → IterOracle) (n : Nat) (s : AgentState) :
    kb_present s = true → s.tool_calls.length = s.step →
    (run_graph env n s).1.tool_calls.length = (run_graph env n s).1.step := by
  induction n, s using run_graph.induct env with
  | case1 n s o s1 h =>
    intro hk hinv
    simp only [show o = env n from rfl, show s1 = reason_node (env n).llm s from rfl] at h
    rw [run_graph_finish_eq env n s h]
    simp only []
    rw [finish_node_tool_calls, finish_node_step, reason_node_tool_calls, reason_node_step]
    exact hinv
  | case2 n s o s1 h ih =>
    intro hk hinv
    simp only [show o = env n from rfl, show s1 = reason_node (env n).llm s from rfl] at h ih
    rw [run_graph_internal_eq env n s h]
    apply ih
    · rw [act_internal_node_kb_present, reason_node_kb_present]
      exact hk
    · have hk1 : kb_present (reason_node (env n).llm s) = true := by
        rw [reason_node_kb_present]; exact hk
      rw [act_internal_node_tool_calls_length _ _ hk1, act_internal_node_step,
          reason_node_tool_calls, reason_node_step, hinv]
  | case3 n s o s1 h ih =>
    intro hk hinv
    simp only [show o = env n from rfl, show s1 = reason_node (env n).llm s from rfl] at h ih
    rw [run_graph_external_eq env n s h]
    apply ih
    · rw [act_external_node_kb_present, reason_node_kb_present]
      exact hk
    · rw [act_external_node_tool_calls_length, act_external_node_step,
          reason_node_tool_calls, reason_node_step, hinv]

/-- Helper: with no corpus location, no node of the loop ever touches
the internal evidence list. -/
theorem run_graph_internal_context_eq (env : Nat → IterOracle) (n : Nat) (s : AgentState) :
    kb_present s = false → (run_graph env n s).1.internal_context = s.internal_context := by
  induction n, s using run_graph.induct env with
  | case1 n s o s1 h =>
    intro hk
    simp only [show o = env n from rfl, show s1 = reason_node (env n).llm s from rfl] at h
    rw [run_graph_finish_eq env n s h]
    simp only []
    rw [finish_node_internal_context, reason_node_internal_context]
  | case2 n s o s1 h ih =>
    intro hk
    simp only [show o = env n from rfl, show s1 = reason_node (env n).llm s from rfl] at h ih
    rw [run_graph_internal_eq env n s h]
    have hk1 : kb_present (reason_node (env n).llm s) = false := by
      rw [reason_node_kb_present]; exact hk
    have hk2 : kb_present (act_internal_node (env n).internalRes (reason_node (env n).llm s)) = false := by
      rw [act_internal_node_kb_present]; exact hk1
    rw [ih hk2, act_internal_node_skip _ _ hk1]
    rw [show ({ reason_node (env n).llm s with step := (reason_node (env n).llm s).step + 1 } : AgentState).internal_context = (reason_node (env n).llm s).internal_context from rfl]
    rw [reason_node_internal_context]
  | case3 n s o s1 h ih =>
    intro hk
    simp only [show o = env n from rfl, show s1 = reason_node (env n).llm s from rfl] at h ih
    rw [run_graph_external_eq env n s h]
    have hk2 : kb_present (act_external_node (env n).externalRes (reason_node (env n).llm s)) = false := by
      rw [act_external_node_kb_present, reason_node_kb_present]; exact hk
    rw [ih hk2, act_external_node_internal_context, reason_node_internal_context]

/-- Helper: every line falls into exactly one of the four parser
branches. -/
theorem lineCat_cases (l : String) :
    lineCat l = 0 ∨ lineCat l = 1 ∨ lineCat l = 2 ∨ lineCat l = 3 := by
  unfold lineCat
  split_ifs <;> simp

/-- Helper: a THOUGHT-labeled line only overwrites the thought. -/
theorem parse_line_of_cat0 (l : String) (h : lineCat l = 0) (acc : ParseAcc) :
    parse_line acc l = { acc with thought := thought_content l } := by
  unfold lineCat at h
  unfold parse_line
  split_ifs at h ⊢ <;> simp_all

/-- Helper: an ACTION-labeled line only updates the action. -/
theorem parse_line_of_cat1 (l : String) (h : lineCat l = 1) (acc : ParseAcc) :
    parse_line acc l = { acc with action := action_select acc.action l } := by
  unfold lineCat at h
  unfold parse_line
  split_ifs at h ⊢ <;> simp_all

/-- Helper: an ACTION_INPUT-labeled line only overwrites the action
input. -/
theorem parse_line_of_cat2 (l : String) (h : lineCat l = 2) (acc : ParseAcc) :
    parse_line acc l = { acc with action_input := input_content l } := by
  unfold lineCat at h
  unfold parse_line
  split_ifs at h ⊢ <;> simp_all

/-- Helper: an unlabeled line is ignored. -/
theorem parse_line_of_cat3 (l : String) (h : lineCat l = 3) (acc : ParseAcc) :
    parse_line acc l = acc := by
  unfold lineCat at h
  unfold parse_line
  split_ifs at h ⊢ <;> simp_all

/-- Helper: two lines from different parser branches (or both
unlabeled, or equal) can be processed in either order. -/
theorem parse_line_comm (x y : String) (z : ParseAcc)
    (h : x = y ∨ lineCat x ≠ lineCat y ∨ (lineCat x = 3 ∧ lineCat y = 3)) :
    parse_line (parse_line z x) y = parse_line (parse_line z y) x := by
  rcases h with rfl | hne | ⟨hx3, hy3⟩
  · rfl
  · rcases lineCat_cases x with hx|hx|hx|hx <;> rcases lineCat_cases y with hy|hy|hy|hy <;>
      simp_all [parse_line_of_cat0, parse_line_of_cat1, parse_line_of_cat2, parse_line_of_cat3]
  · rw [parse_line_of_cat3 x hx3, parse_line_of_cat3 y hy3, parse_line_of_cat3 x hx3]

/-- Helper: a response without any labeled line leaves the parser
accumulator at its initial value. -/
theorem foldl_parse_line_all_cat3 (lines : List String) (acc : ParseAcc)
    (h : ∀ l ∈ lines, lineCat l = 3) :
    List.foldl parse_line acc lines = acc := by
  induction lines generalizing acc with
  | nil => rfl
  | cons a t ih =>
    rw [List.foldl_cons, parse_line_of_cat3 a (h a (by simp)), ih]
    intro l hl
    exact h l (by simp [hl])

/-- Helper: the action selector yields one of the three tool names or
keeps the previous action. -/
theorem action_select_cases (old : String) (l : String) :
    action_select old l = "search_internal" ∨ action_select old l = "web_search" ∨
      action_select old l = "finish" ∨ action_select old l = old := by
  simp only [action_select]
  split_ifs <;> simp

/-- Helper: one parser step either keeps the action or passes it
through the action selector. -/
theorem parse_line_action_cases (acc : ParseAcc) (l : String) :
    (parse_line acc l).action = acc.action ∨
      (parse_line acc l).action = action_select acc.action l := by
  simp only [parse_line]
  split_ifs <;> simp

/-- Helper: the folded action always stays in the three-name set. -/
theorem foldl_parse_line_action_mem (lines : List String) (acc : ParseAcc)
    (h : acc.action = "search_internal" ∨ acc.action = "web_search" ∨ acc.action = "finish") :
    (List.foldl parse_line acc lines).action = "search_internal" ∨
      (List.foldl parse_line acc lines).action = "web_search" ∨
      (List.foldl parse_line acc lines).action = "finish" := by
  induction lines generalizing acc with
  | nil => exact h
  | cons a t ih =>
    rw [List.foldl_cons]
    apply ih
    rcases parse_line_action_cases acc a with he | he
    · rw [he]; exact h
    · rw [he]
      rcases action_select_cases acc.action a with h1|h1|h1|h1
      · rw [h1]; exact Or.inl rfl
      · rw [h1]; exact Or.inr (Or.inl rfl)
      · rw [h1]; exact Or.inr (Or.inr rfl)
      · rw [h1]; exact h

/-- Helper: a line outside the ACTION_INPUT branch keeps the action
input. -/
theorem parse_line_input_of_ne2 (acc : ParseAcc) (l : String) (h : lineCat l ≠ 2) :
    (parse_line acc l).action_input = acc.action_input := by
  rcases lineCat_cases l with h0|h0|h0|h0
  · rw [parse_line_of_cat0 l h0]
  · rw [parse_line_of_cat1 l h0]
  · exact absurd h0 h
  · rw [parse_line_of_cat3 l h0]

/-- Helper: without any ACTION_INPUT-labeled line the folded action
input keeps its initial value. -/
theorem foldl_parse_line_input_of_ne2 (lines : List String) (acc : ParseAcc)
    (h : ∀ l ∈ lines, lineCat l ≠ 2) :
    (List.foldl parse_line acc lines).action_input = acc.action_input := by
  induction lines generalizing acc with
  | nil => rfl
  | cons a t ih =>
    rw [List.foldl_cons, ih (parse_line acc a) (fun l hl => h l (by simp [hl])),
        parse_line_input_of_ne2 acc a (h a (by simp))]

/-- A concrete oracle whose reasoning call always chooses finish. -/
def finish_env : Nat → IterOracle := fun _ =>
  { llm := Except.ok "THOUGHT: done\nACTION: finish\nACTION_INPUT: none"
    internalRes := Except.ok []
    externalRes := Except.ok []
    synth := Except.ok "report" }

/-- A concrete state whose step budget is exhausted. -/
def budget_state : AgentState :=
  { query := "q", kb_path := none, history := none
    scratchpad := [{ step := 2, thought := "t", action := "web_search", action_input := "q" }]
    tool_calls := [], internal_context := [], external_context := []
    step := 3, max_steps := 3, final_answer := none }

/-- C1: for every step budget a run of the orchestrator loop
terminates (run_graph is a total function of the state and the
external-call oracle) and performs at most max_steps + 1 reasoning
calls: both action nodes increment step by exactly one in every branch
(success, failure or skip), the router forces the finish branch
whenever step has reached max_steps, and the reasoning-call count of a
run started from the initial state is at most max_steps + 1. -/
theorem claim_run_bounded (env : Nat → IterOracle) (q : String) (kb : Option String)
    (ms : Nat) (r1 : Except String (List String)) (r2 : Except String (List WebResult))
    (s : AgentState) (hs : s.max_steps ≤ s.step) :
    (act_internal_node r1 s).step = s.step + 1 ∧
    (act_external_node r2 s).step = s.step + 1 ∧
    route_action s = Route.finish ∧
    (run_graph env 0 (create_initial_state q ms kb)).2 ≤ ms + 1 := by
  refine ⟨act_internal_node_step r1 s, act_external_node_step r2 s, ?_, ?_⟩
  · unfold route_action
    rw [if_pos hs]
  · have h := run_graph_count_le env 0 (create_initial_state q ms kb)
    have h2 : (create_initial_state q ms kb).max_steps = ms := rfl
    have h3 : (create_initial_state q ms kb).step = 0 := rfl
    rw [h2, h3] at h
    omega

/-- Witness for C1 at a concrete oracle and budget-exhausted state. -/
theorem claim_run_bounded_witness :
    (act_internal_node (Except.ok []) budget_state).step = budget_state.step + 1 ∧
    (act_external_node (Except.ok []) budget_state).step = budget_state.step + 1 ∧
    route_action budget_state = Route.finish ∧
    (run_graph finish_env 0 (create_initial_state "q" 2 none)).2 ≤ 2 + 1 :=
  claim_run_bounded finish_env "q" none 2 (Except.ok []) (Except.ok []) budget_state (by decide)

/-- A concrete decision record choosing web_search. -/
def route_record : DecisionRecord :=
  { step := 0, thought := "t", action := "web_search", action_input := "q" }

/-- A concrete state at the budget limit with a pending web_search
decision. -/
def route_state_budget : AgentState :=
  { query := "q", kb_path := none, history := none, scratchpad := [route_record]
    tool_calls := [], internal_context := [], external_context := []
    step := 2, max_steps := 2, final_answer := none }

/-- A concrete state with an empty scratchpad. -/
def route_state_empty : AgentState :=
  { query := "q", kb_path := none, history := none, scratchpad := []
    tool_calls := [], internal_context := [], external_context := []
    step := 0, max_steps := 3, final_answer := none }

/-- A concrete mid-run state with a pending web_search decision. -/
def route_state_decided : AgentState :=
  { query := "q", kb_path := none, history := none, scratchpad := [route_record]
    tool_calls := [], internal_context := [], external_context := []
    step := 1, max_steps := 3, final_answer := none }

/-- C2: the router is a pure function of the state: when the budget is
exhausted it returns finish regardless of the latest decision;
otherwise it maps the action of the most recent scratchpad record
(search_internal to the internal node, web_search to the external
node, anything else to finish); an empty scratchpad yields finish. -/
theorem claim_route_action_spec (sa sb sc : AgentState)
    (pad : List DecisionRecord) (d : DecisionRecord)
    (ha : sa.max_steps ≤ sa.step)
    (hb : sb.scratchpad = [])
    (hc1 : sc.step < sc.max_steps) (hc2 : sc.scratchpad = pad ++ [d]) :
    route_action sa = Route.finish ∧
    route_action sb = Route.finish ∧
    route_action sc = (if d.action = "search_internal" then Route.act_internal
      else if d.action = "web_search" then Route.act_external
      else Route.finish) := by
  refine ⟨?_, ?_, ?_⟩
  · unfold route_action
    rw [if_pos ha]
  · unfold route_action
    rw [hb]
    split_ifs <;> rfl
  · unfold route_action
    rw [if_neg (by omega), hc2, List.getLast?_concat]

/-- Witness for C2 at three concrete states. -/
theorem claim_route_action_spec_witness :
    route_action route_state_budget = Route.finish ∧
    route_action route_state_empty = Route.finish ∧
    route_action route_state_decided = (if route_record.action = "search_internal" then Route.act_internal
      else if route_record.action = "web_search" then Route.act_external
      else Route.finish) :=
  claim_route_action_spec route_state_budget route_state_empty route_state_decided
    [] route_record (by decide) rfl (by decide) rfl

/-- C7: on any failure of the reasoning LLM call the reason node does
not propagate the error: it returns normally, appending exactly one
decision record whose action is finish and whose thought names the
failure, leaving every other field unchanged. -/
theorem claim_reason_failure_recovery (e : String) (s : AgentState) :
    reason_node (Except.error e) s =
      { s with scratchpad := s.scratchpad ++
          [{ step := s.step, thought := "Error during reasoning: " ++ e,
             action := "finish", action_input := s.query }] } := rfl

/-- A concrete state with a corpus location present. -/
def kb_error_state : AgentState :=
  { query := "q", kb_path := some "kb", history := none
    scratchpad := [{ step := 0, thought := "t", action := "search_internal", action_input := "q" }]
    tool_calls := [], internal_context := [], external_context := []
    step := 0, max_steps := 3, final_answer := none }

/-- C8: on a failure of the internal retrieval call (with a corpus
location present) or of the web-search call, the enclosing action node
recovers locally and atomically: it appends exactly one error entry to
tool_calls, leaves both evidence lists and all other fields unchanged,
and still increments step by one. -/
theorem claim_action_failure_recovery (e : String) (s : AgentState)
    (h : kb_present s = true) :
    act_internal_node (Except.error e) s =
      { s with
          tool_calls := s.tool_calls ++
            [{ tool := "search_internal", input := s.query, output := ToolOutput.error e }]
          step := s.step + 1 } ∧
    act_external_node (Except.error e) s =
      { s with
          tool_calls := s.tool_calls ++
            [{ tool := "web_search", input := s.query, output := ToolOutput.error e }]
          step := s.step + 1 } := by
  constructor
  · unfold act_internal_node
    rw [h]
    rfl
  · rfl

/-- Witness for C8 at a concrete state and failure. -/
theorem claim_action_failure_recovery_witness :
    act_internal_node (Except.error "boom") kb_error_state =
      { kb_error_state with
          tool_calls := kb_error_state.tool_calls ++
            [{ tool := "search_internal", input := kb_error_state.query, output := ToolOutput.error "boom" }]
          step := kb_error_state.step + 1 } ∧
    act_external_node (Except.error "boom") kb_error_state =
      { kb_error_state with
          tool_calls := kb_error_state.tool_calls ++
            [{ tool := "web_search", input := kb_error_state.query, output := ToolOutput.error "boom" }]
          step := kb_error_state.step + 1 } :=
  claim_action_failure_recovery "boom" kb_error_state (by decide)

/-- C9: the vector-store loader is idempotent: starting from an empty
in-process cache, a second call with the same corpus location and no
forced rebuild returns exactly the content of the first call, leaves
the cache unchanged, and performs zero embedding/build passes; and
with a loadable persisted index and no forced rebuild the loader loads
instead of rebuilding. -/
theorem claim_initialize_vectorstore_idempotent {VS : Type}
    (build build2 v : VS) (disk disk2 disk3 : DiskState VS) (kb : String)
    (hp : disk3.index_present = true) (hl : disk3.load_result = Except.ok v) :
    initialize_vectorstore build2 disk2
        (initialize_vectorstore build disk ⟨none, none⟩ kb false).2.1 kb false =
      ((initialize_vectorstore build disk ⟨none, none⟩ kb false).1,
       (initialize_vectorstore build disk ⟨none, none⟩ kb false).2.1, 0) ∧
    get_or_create_vectorstore build disk3 false = (v, 0) := by
  constructor
  · simp [initialize_vectorstore]
  · unfold get_or_create_vectorstore
    rw [hp, hl]
    rfl

/-- Witness for C9 with a concrete index content type. -/
theorem claim_initialize_vectorstore_idempotent_witness :
    initialize_vectorstore 8 (DiskState.mk false (Except.error "x"))
        (initialize_vectorstore 7 (DiskState.mk false (Except.error "x")) ⟨none, none⟩ "kb" false).2.1 "kb" false =
      ((initialize_vectorstore 7 (DiskState.mk false (Except.error "x")) ⟨none, none⟩ "kb" false).1,
       (initialize_vectorstore 7 (DiskState.mk false (Except.error "x")) ⟨none, none⟩ "kb" false).2.1, 0) ∧
    get_or_create_vectorstore 7 (DiskState.mk true (Except.ok 9)) false = (9, 0) :=
  claim_initialize_vectorstore_idempotent 7 8 9 (DiskState.mk false (Except.error "x"))
    (DiskState.mk false (Except.error "x")) (DiskState.mk true (Except.ok 9)) "kb" rfl rfl

/-- Helper: every character list is a prefix of itself. -/
theorem starts_with_chars_self (l : List Char) : starts_with_chars l l = true := by
  induction l with
  | nil => rfl
  | cons c cs ih => simp [starts_with_chars, ih]

/-- Helper: extending a list on the right preserves its prefixes. -/
theorem starts_with_chars_mono (p s t : List Char) (h : starts_with_chars p s = true) :
    starts_with_chars p (s ++ t) = true := by
  induction p generalizing s with
  | nil => rfl
  | cons c cs ih =>
    cases s with
    | nil => exact absurd h (by simp [starts_with_chars])
    | cons d ds =>
      simp only [starts_with_chars, Bool.and_eq_true] at h
      simp only [List.cons_append, starts_with_chars, Bool.and_eq_true]
      exact ⟨h.1, ih ds h.2⟩

/-- Helper: every string starts with itself. -/
theorem py_starts_with_self (s : String) : py_starts_with s s = true :=
  starts_with_chars_self s.data

/-- Helper: appending on the right preserves string prefixes. -/
theorem py_starts_with_mono (s t p : String) (h : py_starts_with s p = true) :
    py_starts_with (s ++ t) p = true := by
  unfold py_starts_with at h ⊢
  rw [String.data_append]
  exact starts_with_chars_mono p.data s.data t.data h

/-- C10: the synthesis fallback report is a deterministic offline
function of the run state: the finish node on a synthesis failure
writes exactly the templated fallback of (query, evidence lists, step,
failure message); two failures with equal query, evidence lists, step
count and failure reason produce byte-for-byte identical reports; the
report begins with a header containing the query; and the report
depends on each evidence list only through its length and its first
five entries (at most 5 previews per list). -/
theorem claim_fallback_deterministic (s1 s2 : AgentState) (e1 e2 : String)
    (q err : String) (n : Nat) (int1 int2 : List String) (ext1 ext2 : List WebResult)
    (hq : s1.query = s2.query) (hi : s1.internal_context = s2.internal_context)
    (he : s1.external_context = s2.external_context) (hs : s1.step = s2.step) (hr : e1 = e2)
    (h5 : int1.take 5 = int2.take 5) (h6 : int1.length = int2.length)
    (h7 : ext1.take 5 = ext2.take 5) (h8 : ext1.length = ext2.length) :
    (finish_node (Except.error e1) s1).final_answer =
      some (fallback_answer s1.query s1.internal_context s1.external_context s1.step e1) ∧
    fallback_answer s1.query s1.internal_context s1.external_context s1.step e1 =
      fallback_answer s2.query s2.internal_context s2.external_context s2.step e2 ∧
    py_starts_with (fallback_answer s1.query s1.internal_context s1.external_context s1.step e1)
      ("# Research Brief: " ++ s1.query) = true ∧
    fallback_answer q int1 ext1 n err = fallback_answer q int2 ext2 n err := by
  refine ⟨rfl, by rw [hq, hi, he, hs, hr], ?_, ?_⟩
  · rw [fallback_answer]
    apply py_starts_with_mono
    apply py_starts_with_mono
    apply py_starts_with_mono
    apply py_starts_with_mono
    apply py_starts_with_mono
    apply py_starts_with_mono
    apply py_starts_with_mono
    apply py_starts_with_mono
    apply py_starts_with_mono
    apply py_starts_with_mono
    apply py_starts_with_mono
    apply py_starts_with_mono
    apply py_starts_with_mono
    exact py_starts_with_self _
  · have hne1 : int1.isEmpty = int2.isEmpty := by
      cases int1 <;> cases int2 <;> simp_all
    have hne2 : ext1.isEmpty = ext2.isEmpty := by
      cases ext1 <;> cases ext2 <;> simp_all
    simp only [fallback_answer, h5, h6, h7, h8, hne1, hne2]

/-- A concrete state with gathered evidence. -/
def fallback_sample_state : AgentState :=
  { query := "ping", kb_path := some "kb", history := none
    scratchpad := []
    tool_calls := []
    internal_context := ["alpha", "beta"]
    external_context := [{ title := "T", url := "u", content := "c", score := none, published_date := none }]
    step := 2, max_steps := 3, final_answer := none }

/-- Witness for C10 at a concrete state and failure message. -/
theorem claim_fallback_deterministic_witness :
    (finish_node (Except.error "down") fallback_sample_state).final_answer =
      some (fallback_answer fallback_sample_state.query fallback_sample_state.internal_context
        fallback_sample_state.external_context fallback_sample_state.step "down") ∧
    fallback_answer fallback_sample_state.query fallback_sample_state.internal_context
        fallback_sample_state.external_context fallback_sample_state.step "down" =
      fallback_answer fallback_sample_state.query fallback_sample_state.internal_context
        fallback_sample_state.external_context fallback_sample_state.step "down" ∧
    py_starts_with (fallback_answer fallback_sample_state.query fallback_sample_state.internal_context
        fallback_sample_state.external_context fallback_sample_state.step "down")
      ("# Research Brief: " ++ fallback_sample_state.query) = true ∧
    fallback_answer "ping" ["alpha"] [] 2 "down" = fallback_answer "ping" ["alpha"] [] 2 "down" :=
  claim_fallback_deterministic fallback_sample_state fallback_sample_state "down" "down"
    "ping" "down" 2 ["alpha"] ["alpha"] [] [] rfl rfl rfl rfl rfl rfl rfl rfl rfl

/-- A concrete reachable state with no corpus location whose latest
decision names search_internal. -/
def skip_run_state : AgentState :=
  { query := "q", kb_path := none, history := none
    scratchpad := [{ step := 0, thought := "t", action := "search_internal", action_input := "q" }]
    tool_calls := [], internal_context := [], external_context := []
    step := 0, max_steps := 5, final_answer := none }

/-- C3 counterexample: at a state with no corpus location where
len(tool_calls) = step holds and the router sends the run to the
internal action node, the skipped action increments step by one but
appends nothing to tool_calls, so the claimed invariant fails. -/
theorem claim_tool_calls_track_step_counterexample :
    skip_run_state.tool_calls.length = skip_run_state.step ∧
    route_action skip_run_state = Route.act_internal ∧
    (act_internal_node (Except.ok ["chunk"]) skip_run_state).step = skip_run_state.step + 1 ∧
    (act_internal_node (Except.ok ["chunk"]) skip_run_state).tool_calls.length ≠
      (act_internal_node (Except.ok ["chunk"]) skip_run_state).step := by
  decide

/-- A concrete initial-style state with a corpus location present. -/
def kb_run_state : AgentState :=
  { query := "q", kb_path := some "kb", history := none
    scratchpad := [], tool_calls := [], internal_context := [], external_context := []
    step := 0, max_steps := 2, final_answer := none }

/-- C3 (amended): each completed action call appends exactly one entry
to tool_calls and increments step by exactly one, and with a corpus
location present len(tool_calls) = step is preserved to the end of the
run; the skipped internal action (no corpus location) increments step
without appending an entry, so the equality only holds for runs
without skips. -/
theorem claim_tool_calls_track_step
    (r1 : Except String (List String)) (r2 : Except String (List WebResult))
    (sA sB s : AgentState) (env : Nat → IterOracle) (n : Nat)
    (hA : kb_present sA = true) (hB : kb_present sB = false)
    (hk : kb_present s = true) (hinv : s.tool_calls.length = s.step) :
    (act_internal_node r1 sA).tool_calls.length = sA.tool_calls.length + 1 ∧
    (act_internal_node r1 sA).step = sA.step + 1 ∧
    (act_external_node r2 sA).tool_calls.length = sA.tool_calls.length + 1 ∧
    (act_external_node r2 sA).step = sA.step + 1 ∧
    (act_internal_node r1 sB).tool_calls = sB.tool_calls ∧
    (act_internal_node r1 sB).step = sB.step + 1 ∧
    (run_graph env n s).1.tool_calls.length = (run_graph env n s).1.step :=
  ⟨act_internal_node_tool_calls_length r1 sA hA,
   act_internal_node_step r1 sA,
   act_external_node_tool_calls_length r2 sA,
   act_external_node_step r2 sA,
   by rw [act_internal_node_skip r1 sB hB],
   act_internal_node_step r1 sB,
   run_graph_tool_calls_eq env n s hk hinv⟩

/-- Witness for C3 at concrete states and oracle. -/
theorem claim_tool_calls_track_step_witness :
    (act_internal_node (Except.ok ["c"]) kb_run_state).tool_calls.length = kb_run_state.tool_calls.length + 1 ∧
    (act_internal_node (Except.ok ["c"]) kb_run_state).step = kb_run_state.step + 1 ∧
    (act_external_node (Except.ok []) kb_run_state).tool_calls.length = kb_run_state.tool_calls.length + 1 ∧
    (act_external_node (Except.ok []) kb_run_state).step = kb_run_state.step + 1 ∧
    (act_internal_node (Except.ok ["c"]) skip_run_state).tool_calls = skip_run_state.tool_calls ∧
    (act_internal_node (Except.ok ["c"]) skip_run_state).step = skip_run_state.step + 1 ∧
    (run_graph finish_env 0 kb_run_state).1.tool_calls.length = (run_graph finish_env 0 kb_run_state).1.step :=
  claim_tool_calls_track_step (Except.ok ["c"]) (Except.ok []) kb_run_state skip_run_state
    kb_run_state finish_env 0 (by decide) (by decide) (by decide) rfl

/-- A concrete mid-run state with no corpus location whose latest
decision names search_internal. -/
def no_kb_route_state : AgentState :=
  { query := "q", kb_path := none, history := none
    scratchpad := [{ step := 0, thought := "t", action := "search_internal", action_input := "q" }]
    tool_calls := [], internal_context := [], external_context := []
    step := 1, max_steps := 4, final_answer := none }

/-- C4 counterexample: the router does not consult the corpus
location: at a concrete state with corpus location absent and a latest
decision naming search_internal, route_action still returns the
internal action node, contradicting the claim that the router never
routes there. -/
theorem claim_no_kb_internal_counterexample :
    kb_present no_kb_route_state = false ∧
    route_action no_kb_route_state = Route.act_internal := by
  decide

/-- C4 (amended): with no corpus location, search_internal is excluded
from the legal-action set handed to the reasoning engine and the
internal evidence list stays empty for the whole run; the router can
still route to the internal action node, but that node is then a no-op
apart from the step increment. -/
theorem claim_no_kb_internal_empty
    (sA : AgentState) (r : Except String (List String))
    (env : Nat → IterOracle) (n : Nat) (q : String) (ms : Nat)
    (hA : kb_present sA = false) :
    available_tools sA = ["web_search", "finish"] ∧
    act_internal_node r sA = { sA with step := sA.step + 1 } ∧
    (run_graph env n sA).1.internal_context = sA.internal_context ∧
    (run_graph env n (create_initial_state q ms none)).1.internal_context = [] := by
  refine ⟨?_, act_internal_node_skip r sA hA, run_graph_internal_context_eq env n sA hA, ?_⟩
  · unfold available_tools
    rw [hA]
    rfl
  · rw [run_graph_internal_context_eq env n (create_initial_state q ms none) rfl]
    rfl

/-- Witness for C4 at a concrete no-corpus state. -/
theorem claim_no_kb_internal_empty_witness :
    available_tools no_kb_route_state = ["web_search", "finish"] ∧
    act_internal_node (Except.ok ["c"]) no_kb_route_state = { no_kb_route_state with step := no_kb_route_state.step + 1 } ∧
    (run_graph finish_env 0 no_kb_route_state).1.internal_context = no_kb_route_state.internal_context ∧
    (run_graph finish_env 0 (create_initial_state "q" 2 none)).1.internal_context = [] :=
  claim_no_kb_internal_empty no_kb_route_state (Except.ok ["c"]) finish_env 0 "q" 2 (by decide)

/-- C5 counterexample: when the argument line is absent the parsed
input defaults to "No specific input needed" (capital N), not to the
claimed string "no specific input needed". -/
theorem claim_parse_reasoning_counterexample :
    (parse_reasoning_response "THOUGHT: x\nACTION: search_internal").2.2 =
      "No specific input needed" ∧
    (parse_reasoning_response "THOUGHT: x\nACTION: search_internal").2.2 ≠
      "no specific input needed" := by
  decide

/-- C5 (amended): the reasoning-response parser maps the canonical
three-line response to its three components; a response with no
recognizably labeled line parses to action finish; the parsed action
is always one of search_internal, web_search, finish (substring match
with default finish); and when no argument line is present the parsed
input defaults to the string "No specific input needed". -/
theorem claim_parse_reasoning_spec (resp1 resp2 resp3 : String)
    (h2 : ∀ l ∈ py_split_newlines (py_strip resp2), lineCat l = 3)
    (h3 : ∀ l ∈ py_split_newlines (py_strip resp3), lineCat l ≠ 2) :
    parse_reasoning_response "THOUGHT: x\nACTION: search_internal\nACTION_INPUT: y" =
      ("x", "search_internal", "y") ∧
    (parse_reasoning_response resp2).2.1 = "finish" ∧
    (parse_reasoning_response resp1).2.1 ∈ (["search_internal", "web_search", "finish"] : List String) ∧
    (parse_reasoning_response resp3).2.2 = "No specific input needed" := by
  refine ⟨by decide, ?_, ?_, ?_⟩
  · simp only [parse_reasoning_response]
    rw [foldl_parse_line_all_cat3 _ _ h2]
  · simp only [parse_reasoning_response]
    have h := foldl_parse_line_action_mem (py_split_newlines (py_strip resp1))
      { thought := "", action := "finish", action_input := "" } (Or.inr (Or.inr rfl))
    rcases h with h|h|h <;> simp [h]
  · simp only [parse_reasoning_response]
    rw [foldl_parse_line_input_of_ne2 _ _ h3]
    rfl

/-- Witness for C5 at concrete responses. -/
theorem claim_parse_reasoning_spec_witness :
    parse_reasoning_response "THOUGHT: x\nACTION: search_internal\nACTION_INPUT: y" =
      ("x", "search_internal", "y") ∧
    (parse_reasoning_response "no labels at all").2.1 = "finish" ∧
    (parse_reasoning_response "ACTION: pick the web tool").2.1 ∈
      (["search_internal", "web_search", "finish"] : List String) ∧
    (parse_reasoning_response "THOUGHT: alpha").2.2 = "No specific input needed" :=
  claim_parse_reasoning_spec "ACTION: pick the web tool" "no labels at all" "THOUGHT: alpha"
    (by decide) (by decide)

/-- C6 counterexample: the three line labels are matched
case-sensitively: lowercasing the labels of a response changes the
parsed triple, contradicting the claimed case-insensitivity. -/
theorem claim_parse_label_case_counterexample :
    parse_reasoning_response "thought: x\naction: web_search\naction_input: y" ≠
      parse_reasoning_response "THOUGHT: x\nACTION: web_search\nACTION_INPUT: y" := by
  decide

/-- C6 (amended): the parser tolerates the labeled lines appearing in
any order: for any reordering of the response lines in which no two
distinct lines carry the same label, the parser fold yields the same
accumulator, and reordering the three labeled lines of a concrete
response leaves the parsed triple unchanged; label matching itself is
case-sensitive. -/
theorem claim_parse_order_insensitive (lines lines2 : List String) (acc : ParseAcc)
    (hperm : List.Perm lines lines2)
    (huniq : ∀ x ∈ lines, ∀ y ∈ lines, lineCat x = lineCat y → lineCat x ≠ 3 → x = y) :
    List.foldl parse_line acc lines = List.foldl parse_line acc lines2 ∧
    parse_reasoning_response "ACTION: web_search\nACTION_INPUT: y\nTHOUGHT: x" =
      parse_reasoning_response "THOUGHT: x\nACTION: web_search\nACTION_INPUT: y" := by
  constructor
  · refine hperm.foldl_eq' ?_ acc
    intro x hx y hy z
    apply parse_line_comm
    by_cases hc : lineCat x = lineCat y
    · by_cases h3 : lineCat x = 3
      · exact Or.inr (Or.inr ⟨h3, by rw [← hc]; exact h3⟩)
      · exact Or.inl (huniq x hx y hy hc h3)
    · exact Or.inr (Or.inl hc)
  · decide

/-- Witness for C6 at a concrete reordering. -/
theorem claim_parse_order_insensitive_witness :
    List.foldl parse_line { thought := "", action := "finish", action_input := "" }
        ["THOUGHT: x", "ACTION: finish"] =
      List.foldl parse_line { thought := "", action := "finish", action_input := "" }
        ["ACTION: finish", "THOUGHT: x"] ∧
    parse_reasoning_response "ACTION: web_search\nACTION_INPUT: y\nTHOUGHT: x" =
      parse_reasoning_response "THOUGHT: x\nACTION: web_search\nACTION_INPUT: y" :=
  claim_parse_order_insensitive ["THOUGHT: x", "ACTION: finish"] ["ACTION: finish", "THOUGHT: x"]
    { thought := "", action := "finish", action_input := "" } (by decide) (by decide)
